import Mathlib

/-!
Verification development for the DeDeezer auto-patcher.

The patch pipeline of `autopatch.js` (class `DeezerPatcher`) is embedded as a
sequence of state transformers over an explicit filesystem map; the asar codec
and the package manager are external oracles constrained only by their
directory contracts (they write under the destination they are invoked on).
The Ghostery injection wrapper (`patch_files/ghostery.js`) is embedded as a
two-phase capture/replay trace semantics.
-/

namespace DeDeezer

/-- A filesystem path, as its list of components. -/
abbrev Path := List String

/-- A filesystem node: a regular file with content and modification time, or a
directory. -/
inductive FNode where
  | file (content : String) (mtime : Nat)
  | dir
deriving DecidableEq

/-- A filesystem: a partial map from paths to nodes. -/
abbrev FS := Path → Option FNode

def FS.empty : FS := fun _ => none

/-- Write (create or overwrite) the node at path `p`. -/
def FS.set (fs : FS) (p : Path) (n : FNode) : FS :=
  fun q => if q = p then some n else fs q

/-- `isSeg p q` holds when `p` is an initial segment of `q`, i.e. `q` denotes
`p` itself or something inside the directory `p`. -/
def isSeg : Path → Path → Bool
  | [], _ => true
  | _ :: _, [] => false
  | a :: p, b :: q => if a = b then isSeg p q else false

/-- `fs.rmSync(p, recursive: true, force: true)`: removes `p` and everything
below it. -/
def FS.rmrf (fs : FS) (p : Path) : FS :=
  fun q => if isSeg p q then none else fs q

/-- `fs.renameSync(src, dst)`: the subtree rooted at `src` moves to `dst`. -/
def FS.rename (fs : FS) (src dst : Path) : FS :=
  fun q =>
    if isSeg src q then none
    else if isSeg dst q then fs (src ++ q.drop dst.length)
    else fs q

/-- `fs.existsSync(p)`. -/
def FS.existsSync (fs : FS) (p : Path) : Bool := (fs p).isSome

/-- Character-list prefix test (helper for substring containment). -/
def charSeg : List Char → List Char → Bool
  | [], _ => true
  | _ :: _, [] => false
  | a :: p, b :: q => if a = b then charSeg p q else false

/-- Does `sub` occur contiguously inside `l`? -/
def charInfix (sub : List Char) : List Char → Bool
  | [] => sub.isEmpty
  | b :: rest => charSeg sub (b :: rest) || charInfix sub rest

/-- `String.prototype.includes`: substring containment test. -/
def includesStr (s sub : String) : Bool := charInfix sub.data s.data

/-- Trace of external tool invocations made by the pipeline. -/
inductive Ev where
  | extract (src dst : Path)
  | pack (dir out : Path)
  | npm (cmd : String) (cwd : Path)
deriving DecidableEq

/-- The mutable state threaded through the patcher: the filesystem, a clock
used for modification times, the external-invocation trace, and the
`this.useExistingBackup` instance flag (initially absent, i.e. falsy). -/
structure St where
  fs : FS
  clock : Nat
  trace : List Ev
  useExistingBackup : Bool

def St.start (fs : FS) : St := ⟨fs, 0, [], false⟩

/-- Result of one pipeline step: normal return, a thrown error (carrying the
state at the throw point), or a `process.exit` (which bypasses the top-level
catch). -/
inductive StepRes where
  | ok (s : St)
  | err (msg : String) (s : St)
  | exited (code : Nat) (s : St)

def StepRes.state : StepRes → St
  | .ok s => s
  | .err _ s => s
  | .exited _ s => s

/-- Sequencing of steps: a thrown error or a `process.exit` aborts the rest. -/
def seqS (r : StepRes) (f : St → StepRes) : StepRes :=
  match r with
  | .ok s => f s
  | r => r

/-- The external collaborators: the asar codec and the npm installs.  An
extraction yields the archive's entries (relative path and content) or fails;
a pack yields the archive content or fails; an npm install yields the files it
materialises under its working directory or fails. -/
structure Ext where
  extract : Path → Option (List (Path × String))
  pack : Path → Option String
  npmGhostery : Option (List (Path × String))
  npmProd : Option (List (Path × String))

/-- Materialise extraction (or install) output: each entry `(rel, content)` is
written at `dst ++ rel`, in order. -/
def writeEntries (dst : Path) (es : List (Path × String)) (fs : FS) (t : Nat) : FS :=
  match es with
  | [] => fs
  | e :: rest => writeEntries dst rest (FS.set fs (dst ++ e.1) (FNode.file e.2 t)) t

/-- The platform-specific path table (`getPlatformPaths`). -/
structure Paths where
  deezerPath : Path
  asarFile : String
  executable : String

def win32Paths (homedir : Path) : Paths :=
  ⟨homedir ++ ["AppData", "Local", "Programs", "deezer-desktop"], "app.asar", "Deezer.exe"⟩

/-- `getPlatformPaths()`: the `switch (this.platform)` of the constructor;
`none` models the thrown "Unsupported platform" error. -/
def getPlatformPaths (platform : String) (homedir : Path) : Option Paths :=
  if platform = "win32" then some (win32Paths homedir)
  else if platform = "darwin" then
    some ⟨["Applications", "Deezer.app", "Contents", "Resources"], "app.asar", "Deezer"⟩
  else if platform = "linux" then
    some ⟨["opt", "deezer-desktop", "resources"], "app.asar", "deezer-desktop"⟩
  else none

/-- The ambient data fixed at construction time: platform, home and temp
directories, `__dirname`, the two `Date.now()` samples (constructor and
signature check), the interactive confirmation answer, and the detected
package manager. -/
structure Config where
  platform : String
  homedir : Path
  tmpdir : Path
  dirname : Path
  now : Nat
  checkNow : Nat
  userConfirm : Bool
  packageManager : String

def Config.tempDir (c : Config) : Path := c.tmpdir ++ ["deezer-patch-" ++ toString c.now]

def Config.tempCheck (c : Config) : Path := c.tmpdir ++ ["deezer-check-" ++ toString c.checkNow]

/-- `<deezerPath>/resources/<asarFile>`: the live archive. -/
def originalAsar (p : Paths) : Path := p.deezerPath ++ ["resources", p.asarFile]

/-- `<deezerPath>/resources/app.bak.asar`: the backup. -/
def backupFile (p : Paths) : Path := p.deezerPath ++ ["resources", "app.bak.asar"]

def extractPath (c : Config) : Path := c.tempDir ++ ["extracted"]

def newAsarPath (c : Config) : Path := c.tempDir ++ ["app.new.asar"]

/-- `path.join(__dirname, 'decomp', 'build', 'main.js')`: the prepared
injection wrapper. -/
def sourceMain (c : Config) : Path := c.dirname ++ ["decomp", "build", "main.js"]

/-- `checkPatchSignature(asarPath)`: extract a throwaway copy into a fresh
temporary directory, test `build/main.js` for the markers `DZ_DEVTOOLS` /
`[inject]`, and return the verdict.  A throw anywhere (failed extraction, or a
read failure when the entry path exists but is a directory) is caught and
yields `false`, leaving the state as it was at the throw point. -/
def checkPatchSignature (ext : Ext) (asarPath tempCheck : Path) (s : St) : Bool × St :=
  let s1 : St := { s with fs := FS.set s.fs tempCheck FNode.dir,
                          trace := s.trace ++ [Ev.extract asarPath tempCheck] }
  match ext.extract asarPath with
  | none => (false, s1)
  | some es =>
    let s2 : St := { s1 with fs := writeEntries tempCheck es s1.fs s1.clock,
                             clock := s1.clock + 1 }
    match s2.fs (tempCheck ++ ["build", "main.js"]) with
    | some (FNode.file content _) =>
      (includesStr content "DZ_DEVTOOLS" || includesStr content "[inject]",
       { s2 with fs := FS.rmrf s2.fs tempCheck })
    | some FNode.dir => (false, s2)
    | none => (false, { s2 with fs := FS.rmrf s2.fs tempCheck })

/-- Step 0a: process kill.  Touches processes only, not the filesystem; all
its failures are caught and logged. -/
def step0_KillDeezer (s : St) : StepRes := .ok s

/-- Step 0b: `step0_CheckIfPatched`. -/
def step0_CheckIfPatched (c : Config) (p : Paths) (ext : Ext) (s : St) : StepRes :=
  if !FS.existsSync s.fs (originalAsar p) then
    .err "Deezer asar file not found" s
  else
    let r := checkPatchSignature ext (originalAsar p) c.tempCheck s
    if r.1 then
      if FS.existsSync r.2.fs (backupFile p) then
        if c.userConfirm then .ok { r.2 with useExistingBackup := true }
        else .exited 0 r.2
      else .exited 1 r.2
    else .ok r.2

/-- Step 1: `step1_CreateBackup`. -/
def step1_CreateBackup (p : Paths) (s : St) : StepRes :=
  if !FS.existsSync s.fs (originalAsar p) then
    .err "Deezer asar file not found" s
  else if FS.existsSync s.fs (backupFile p) && !s.useExistingBackup then
    .ok s
  else if s.useExistingBackup then
    .ok s
  else
    match s.fs (originalAsar p) with
    | some (FNode.file content _) =>
      .ok { s with fs := FS.set s.fs (backupFile p) (FNode.file content s.clock),
                   clock := s.clock + 1 }
    | _ => .err "copyFileSync failed" s

/-- Step 2: `step2_CreateTempFolder`. -/
def step2_CreateTempFolder (c : Config) (s : St) : StepRes :=
  let fs1 := if FS.existsSync s.fs c.tempDir then FS.rmrf s.fs c.tempDir else s.fs
  .ok { s with fs := FS.set fs1 c.tempDir FNode.dir }

/-- Step 3: `step3_ExtractAsar`.  Extracts from the backup when repatching,
from the live archive otherwise. -/
def step3_ExtractAsar (c : Config) (p : Paths) (ext : Ext) (s : St) : StepRes :=
  let sourceAsar := if s.useExistingBackup then backupFile p else originalAsar p
  let s1 : St := { s with trace := s.trace ++ [Ev.extract sourceAsar (extractPath c)] }
  match ext.extract sourceAsar with
  | none => .err "asar extract failed" s1
  | some es =>
    .ok { s1 with fs := writeEntries (extractPath c) es s1.fs s1.clock,
                  clock := s1.clock + 1 }

/-- Step 4: `step4_RenameMainJs`. -/
def step4_RenameMainJs (c : Config) (s : St) : StepRes :=
  let originalMain := extractPath c ++ ["build", "main.js"]
  let renamedMain := extractPath c ++ ["build", "main.original.js"]
  if !FS.existsSync s.fs originalMain then
    .err "Original main.js not found" s
  else
    .ok { s with fs := FS.rename s.fs originalMain renamedMain }

/-- Step 5: `step5_CopyNewMainJs`. -/
def step5_CopyNewMainJs (c : Config) (s : St) : StepRes :=
  let targetMain := extractPath c ++ ["build", "main.js"]
  if !FS.existsSync s.fs (sourceMain c) then
    .err "Patched main.js not found" s
  else
    match s.fs (sourceMain c) with
    | some (FNode.file content _) =>
      .ok { s with fs := FS.set s.fs targetMain (FNode.file content s.clock),
                   clock := s.clock + 1 }
    | _ => .err "copyFileSync failed" s

/-- The opening move of step 6: remove the extracted tree's `node_modules` if
it exists. -/
def rmNodeModules (c : Config) (s : St) : St :=
  if FS.existsSync s.fs (extractPath c ++ ["node_modules"]) then
    { s with fs := FS.rmrf s.fs (extractPath c ++ ["node_modules"]) }
  else s

/-- Step 6: `step6_AddGhosteryDependencies`: remove `node_modules`, then (only
when a `package.json` is present) run the two npm installs. -/
def step6_AddGhosteryDependencies (c : Config) (ext : Ext) (s : St) : StepRes :=
  let packageJsonPath := extractPath c ++ ["package.json"]
  let s1 : St := rmNodeModules c s
  if !FS.existsSync s1.fs packageJsonPath then
    .ok s1
  else
    let s2 : St := { s1 with trace := s1.trace ++
      [Ev.npm "npm install --save @ghostery/adblocker-electron" (extractPath c)] }
    match ext.npmGhostery with
    | none => .err "ghostery install failed" s2
    | some es1 =>
      let s3 : St := { s2 with fs := writeEntries (extractPath c) es1 s2.fs s2.clock,
                               clock := s2.clock + 1 }
      let s4 : St := { s3 with trace := s3.trace ++
        [Ev.npm "npm install --production" (extractPath c)] }
      match ext.npmProd with
      | none => .err "npm install failed" s4
      | some es2 =>
        .ok { s4 with fs := writeEntries (extractPath c) es2 s4.fs s4.clock,
                      clock := s4.clock + 1 }

/-- Step 7: `step7_RepackAsar`. -/
def step7_RepackAsar (c : Config) (ext : Ext) (s : St) : StepRes :=
  let s1 : St := { s with trace := s.trace ++ [Ev.pack (extractPath c) (newAsarPath c)] }
  match ext.pack (extractPath c) with
  | none => .err "asar pack failed" s1
  | some content =>
    .ok { s1 with fs := FS.set s1.fs (newAsarPath c) (FNode.file content s1.clock),
                  clock := s1.clock + 1 }

/-- `cleanup()`: remove the scratch workspace if it exists. -/
def cleanup (c : Config) (s : St) : St :=
  if FS.existsSync s.fs c.tempDir then { s with fs := FS.rmrf s.fs c.tempDir } else s

/-- Step 8: `step8_CopyBack`: copy the repacked archive over the live archive
and clean the scratch workspace. -/
def step8_CopyBack (c : Config) (p : Paths) (s : St) : StepRes :=
  if !FS.existsSync s.fs (newAsarPath c) then
    .err "Repacked asar not found" s
  else
    match s.fs (newAsarPath c) with
    | some (FNode.file content _) =>
      cleanup c { s with fs := FS.set s.fs (originalAsar p) (FNode.file content s.clock),
                         clock := s.clock + 1 } |> .ok
    | _ => .err "copyFileSync failed" s

/-- Steps 0a through 7, in the order `run()` awaits them. -/
def stepsBeforeCopyBack (c : Config) (p : Paths) (ext : Ext) (s : St) : StepRes :=
  seqS (step0_KillDeezer s) fun s =>
  seqS (step0_CheckIfPatched c p ext s) fun s =>
  seqS (step1_CreateBackup p s) fun s =>
  seqS (step2_CreateTempFolder c s) fun s =>
  seqS (step3_ExtractAsar c p ext s) fun s =>
  seqS (step4_RenameMainJs c s) fun s =>
  seqS (step5_CopyNewMainJs c s) fun s =>
  seqS (step6_AddGhosteryDependencies c ext s) fun s =>
  step7_RepackAsar c ext s

/-- The whole awaited step sequence of `run()`. -/
def runSteps (c : Config) (p : Paths) (ext : Ext) (s : St) : StepRes :=
  seqS (stepsBeforeCopyBack c p ext s) (step8_CopyBack c p)

/-- How the process ends: normal completion, the top-level catch (cleanup then
`process.exit(1)`), or a `process.exit` issued inside a step. -/
inductive Outcome where
  | success
  | errorExit (msg : String)
  | earlyExit (code : Nat)
deriving DecidableEq

/-- `run()`: the platform guard, the step sequence, and the top-level catch
that cleans the workspace and exits non-zero on a thrown error. -/
def run (c : Config) (ext : Ext) (s : St) : St × Outcome :=
  match getPlatformPaths c.platform c.homedir with
  | none => (s, .errorExit "Unsupported platform")
  | some p =>
    if c.platform = "win32" then
      match runSteps c p ext s with
      | .ok s' => (s', .success)
      | .err m s' => (cleanup c s', .errorExit m)
      | .exited code s' => (s', .earlyExit code)
    else (s, .success)

/-! ## The injection wrapper (`patch_files/ghostery.js`) -/

/-- Which of `initAdblocker`'s fallible external operations succeed: loading
the Ghostery/cross-fetch modules, building the engine from cache, building it
without cache, enabling it through the `webRequest` API, and installing the
manual rule list. -/
structure AdbEnv where
  depsOk : Bool
  cacheOk : Bool
  noCacheOk : Bool
  ghosteryEnableOk : Bool
  manualOk : Bool

/-- What `initAdblocker` resolves to: the Ghostery engine, the manual rule
list fallback, or `null` (no blocking at all).  It always resolves. -/
inductive AdbRes where
  | ghostery
  | manual
  | failed
deriving DecidableEq

/-- The outer catch of `initAdblocker`: manual blocking, or `null`. -/
def manualFallback (e : AdbEnv) : AdbRes :=
  if e.manualOk then .manual else .failed

/-- `initAdblocker()`: the nested try/catch decision structure.  Dependency or
engine-construction failures reach the outer catch; a Ghostery-enable failure
first tries manual blocking in the inner catch, and only if that throws does
the outer catch run (trying manual blocking once more). -/
def initAdblocker (e : AdbEnv) : AdbRes :=
  if !e.depsOk then manualFallback e
  else if !(e.cacheOk || e.noCacheOk) then manualFallback e
  else if e.ghosteryEnableOk then .ghostery
  else if e.manualOk then .manual
  else manualFallback e

/-- Observable events of the wrapper: a non-ready registration passed through
to the real `app.on`, a ready listener captured into the queue, the
resolution of `initAdblocker`, a deferred listener invocation, a caught
listener exception, and the restoration of the original `app.on`. -/
inductive WEv where
  | passedThrough (event : String) (idx : Nat)
  | captured (idx : Nat)
  | adblockDone (r : AdbRes)
  | invoked (idx : Nat)
  | listenerError (idx : Nat)
  | restoredAppOn
deriving DecidableEq

/-- The patched `app.on`: a `'ready'` registration is pushed onto
`readyListeners` instead of being registered; anything else goes to the
original `app.on`. -/
def appOnPatched (acc : List WEv × List Nat) (reg : String × Nat) : List WEv × List Nat :=
  if reg.1 = "ready" then (acc.1 ++ [WEv.captured reg.2], acc.2 ++ [reg.2])
  else (acc.1 ++ [WEv.passedThrough reg.1 reg.2], acc.2)

/-- Loading the original main module performs its registrations, in order,
against the patched `app.on`; the result is the event list and the captured
`readyListeners` queue. -/
def capturePhase (regs : List (String × Nat)) : List WEv × List Nat :=
  regs.foldl appOnPatched ([], [])

/-- One iteration of the replay loop: the listener is invoked; if it throws,
the exception is caught and logged. -/
def replayStep (throws : Nat → Bool) (acc : List WEv) (i : Nat) : List WEv :=
  acc ++ (if throws i then [WEv.invoked i, WEv.listenerError i] else [WEv.invoked i])

/-- The replay loop of `bootstrap()`. -/
def replay (throws : Nat → Bool) (queue : List Nat) : List WEv :=
  queue.foldl (replayStep throws) []

/-- `bootstrap()` after `app.whenReady()`: await `initAdblocker`, then replay
the captured listeners in registration order, then restore `app.on`. -/
def bootstrapTrace (throws : Nat → Bool) (e : AdbEnv) (queue : List Nat) : List WEv :=
  WEv.adblockDone (initAdblocker e) :: (replay throws queue ++ [WEv.restoredAppOn])

/-- The whole wrapper: capture phase (original main loads and registers its
handlers), then the bootstrap. -/
def wrapperTrace (regs : List (String × Nat)) (throws : Nat → Bool) (e : AdbEnv) : List WEv :=
  (capturePhase regs).1 ++ bootstrapTrace throws e (capturePhase regs).2

/-- The ready registrations of the original main, in order. -/
def readyIds (regs : List (String × Nat)) : List Nat :=
  (regs.filter fun r => r.1 = "ready").map Prod.snd

/-- The event list a capture phase produces. -/
def capEvents (regs : List (String × Nat)) : List WEv :=
  regs.map fun r => if r.1 = "ready" then WEv.captured r.2 else WEv.passedThrough r.1 r.2

/-- The sequence of listener invocations in a trace. -/
def invokedIds (t : List WEv) : List Nat :=
  t.filterMap fun ev => match ev with | WEv.invoked i => some i | _ => none

/-! ## Concrete instances used to exercise the definitions -/

/-- External tools in which every invocation fails. -/
def extFail : Ext := ⟨fun _ => none, fun _ => none, none, none⟩

/-- External tools whose extraction yields an entry script carrying the
injection marker. -/
def extMarked : Ext :=
  ⟨fun _ => some [(["build", "main.js"], "x [inject] y")], fun _ => none, none, none⟩

/-- A concrete win32 construction-time environment. -/
def cfgW : Config := ⟨"win32", ["home"], ["tmp"], ["repo"], 1, 2, true, "npm"⟩

def pathsW : Paths := win32Paths ["home"]

/-- An installation with nothing on disk. -/
def stEmpty : St := St.start FS.empty

/-- An installation with only the live archive present. -/
def stLive : St := St.start (FS.set FS.empty (originalAsar pathsW) (FNode.file "orig" 0))

/-- An installation with the live archive and a backup present. -/
def stLiveBak : St :=
  St.start (FS.set (FS.set FS.empty (originalAsar pathsW) (FNode.file "orig" 0))
    (backupFile pathsW) (FNode.file "b" 0))

/-- The state of a repatching session: live archive present and
`useExistingBackup` already set. -/
def stFlag : St := ⟨stLive.fs, 0, [], true⟩

/-! ## Path and filesystem lemmas -/

theorem isSeg_refl (p : Path) : isSeg p p = true := by
  induction p with
  | nil => rfl
  | cons a p ih => simp [isSeg, ih]

theorem isSeg_append (p r : Path) : isSeg p (p ++ r) = true := by
  induction p with
  | nil => rfl
  | cons a p ih => simp [isSeg, ih]

theorem isSeg_of_append (a b q : Path) (h : isSeg (a ++ b) q = true) : isSeg a q = true := by
  induction a generalizing q with
  | nil => rfl
  | cons x a ih =>
    cases q with
    | nil => simp [isSeg] at h
    | cons y q =>
      rw [List.cons_append, isSeg] at h
      rw [isSeg]
      by_cases hxy : x = y
      · rw [if_pos hxy] at h ⊢
        exact ih q h
      · rw [if_neg hxy] at h
        exact absurd h (by simp)

theorem isSeg_append_false (a b q : Path) (h : isSeg a q = false) :
    isSeg (a ++ b) q = false := by
  cases hx : isSeg (a ++ b) q
  · rfl
  · exact absurd (isSeg_of_append a b q hx) (by simp [h])

theorem isSeg_append_same (a b d : Path) : isSeg (a ++ b) (a ++ d) = isSeg b d := by
  induction a with
  | nil => rfl
  | cons x a ih => simp [isSeg, ih]

theorem ne_of_isSeg {a w q : Path} (hw : isSeg a w = true) (hq : isSeg a q = false) :
    w ≠ q := by
  intro h
  rw [h] at hw
  simp [hw] at hq

theorem isSeg_append_append (p r t : Path) : isSeg p ((p ++ r) ++ t) = true := by
  rw [List.append_assoc]
  exact isSeg_append p (r ++ t)

theorem FS.set_frame (fs : FS) (p : Path) (n : FNode) (q : Path) (h : q ≠ p) :
    FS.set fs p n q = fs q := by
  simp [FS.set, h]

theorem FS.set_same (fs : FS) (p : Path) (n : FNode) : FS.set fs p n p = some n := by
  simp [FS.set]

theorem FS.rmrf_frame (fs : FS) (p q : Path) (h : isSeg p q = false) :
    FS.rmrf fs p q = fs q := by
  simp [FS.rmrf, h]

theorem FS.rmrf_none (fs : FS) (p q : Path) (h : isSeg p q = true) :
    FS.rmrf fs p q = none := by
  simp [FS.rmrf, h]

theorem FS.rename_frame (fs : FS) (src dst q : Path)
    (h1 : isSeg src q = false) (h2 : isSeg dst q = false) :
    FS.rename fs src dst q = fs q := by
  simp [FS.rename, h1, h2]

theorem writeEntries_frame (dst : Path) (es : List (Path × String)) (fs : FS) (t : Nat)
    (q : Path) (h : isSeg dst q = false) : writeEntries dst es fs t q = fs q := by
  induction es generalizing fs with
  | nil => rfl
  | cons e rest ih =>
    rw [writeEntries, ih]
    exact FS.set_frame _ _ _ _ (ne_of_isSeg (isSeg_append dst e.1) h).symm

theorem seqS_frame (r : StepRes) (f : St → StepRes) (q : Path) (s0 : St)
    (hr : (r.state).fs q = s0.fs q)
    (hf : ∀ s, ((f s).state).fs q = s.fs q) :
    ((seqS r f).state).fs q = s0.fs q := by
  cases r with
  | ok s => exact (hf s).trans hr
  | err m s => exact hr
  | exited k s => exact hr

/-! ## Frame lemmas for the signature check and the pipeline steps -/

theorem checkPatchSignature_frame (ext : Ext) (asarPath tempCheck : Path) (s : St)
    (q : Path) (hq : isSeg tempCheck q = false) :
    ((checkPatchSignature ext asarPath tempCheck s).2).fs q = s.fs q := by
  have hne : q ≠ tempCheck := (ne_of_isSeg (isSeg_refl tempCheck) hq).symm
  have hset : FS.set s.fs tempCheck FNode.dir q = s.fs q := FS.set_frame _ _ _ _ hne
  cases hext : ext.extract asarPath with
  | none => simp [checkPatchSignature, hext, hset]
  | some es =>
    have hw : writeEntries tempCheck es (FS.set s.fs tempCheck FNode.dir) s.clock q
        = s.fs q := by
      rw [writeEntries_frame _ _ _ _ _ hq]
      exact hset
    cases hlook : writeEntries tempCheck es (FS.set s.fs tempCheck FNode.dir) s.clock
        (tempCheck ++ ["build", "main.js"]) with
    | none => simp [checkPatchSignature, hext, hlook, FS.rmrf, hq, hw]
    | some node =>
      cases node with
      | file content t => simp [checkPatchSignature, hext, hlook, FS.rmrf, hq, hw]
      | dir => simp [checkPatchSignature, hext, hlook, hw]

theorem checkPatchSignature_trace (ext : Ext) (asarPath tempCheck : Path) (s : St) :
    ((checkPatchSignature ext asarPath tempCheck s).2).trace
      = s.trace ++ [Ev.extract asarPath tempCheck] := by
  cases hext : ext.extract asarPath with
  | none => simp [checkPatchSignature, hext]
  | some es =>
    cases hlook : writeEntries tempCheck es (FS.set s.fs tempCheck FNode.dir) s.clock
        (tempCheck ++ ["build", "main.js"]) with
    | none => simp [checkPatchSignature, hext, hlook]
    | some node =>
      cases node with
      | file content t => simp [checkPatchSignature, hext, hlook]
      | dir => simp [checkPatchSignature, hext, hlook]

theorem checkPatchSignature_true_cleanup (ext : Ext) (asarPath tempCheck : Path) (s : St)
    (h : (checkPatchSignature ext asarPath tempCheck s).1 = true) :
    ∀ q, isSeg tempCheck q = true →
      ((checkPatchSignature ext asarPath tempCheck s).2).fs q = none := by
  intro q hq
  cases hext : ext.extract asarPath with
  | none => simp [checkPatchSignature, hext] at h
  | some es =>
    cases hlook : writeEntries tempCheck es (FS.set s.fs tempCheck FNode.dir) s.clock
        (tempCheck ++ ["build", "main.js"]) with
    | none => simp [checkPatchSignature, hext, hlook, FS.rmrf, hq]
    | some node =>
      cases node with
      | file content t => simp [checkPatchSignature, hext, hlook, FS.rmrf, hq]
      | dir => simp [checkPatchSignature, hext, hlook] at h

theorem step0_Kill_frame (q : Path) : ∀ s : St, ((step0_KillDeezer s).state).fs q = s.fs q :=
  fun _ => rfl

theorem step0_Check_frame (c : Config) (p : Paths) (ext : Ext) (q : Path)
    (hq : isSeg c.tempCheck q = false) :
    ∀ s, ((step0_CheckIfPatched c p ext s).state).fs q = s.fs q := by
  intro s
  have hc := checkPatchSignature_frame ext (originalAsar p) c.tempCheck s q hq
  unfold step0_CheckIfPatched
  dsimp only
  split
  · rfl
  · split
    · split
      · split
        · exact hc
        · exact hc
      · exact hc
    · exact hc

theorem step1_frame (p : Paths) (q : Path) (hq : q ≠ backupFile p) :
    ∀ s, ((step1_CreateBackup p s).state).fs q = s.fs q := by
  intro s
  unfold step1_CreateBackup
  split
  · rfl
  · split
    · rfl
    · split
      · rfl
      · split
        · exact FS.set_frame _ _ _ _ hq
        · rfl

theorem step2_frame (c : Config) (q : Path) (hq : isSeg c.tempDir q = false) :
    ∀ s, ((step2_CreateTempFolder c s).state).fs q = s.fs q := by
  intro s
  have hne : q ≠ c.tempDir := (ne_of_isSeg (isSeg_refl c.tempDir) hq).symm
  unfold step2_CreateTempFolder
  dsimp only
  show FS.set _ c.tempDir FNode.dir q = s.fs q
  rw [FS.set_frame _ _ _ _ hne]
  split
  · exact FS.rmrf_frame _ _ _ hq
  · rfl

theorem step3_frame (c : Config) (p : Paths) (ext : Ext) (q : Path)
    (hq : isSeg c.tempDir q = false) :
    ∀ s, ((step3_ExtractAsar c p ext s).state).fs q = s.fs q := by
  intro s
  have hx : isSeg (extractPath c) q = false := isSeg_append_false c.tempDir _ q hq
  unfold step3_ExtractAsar
  dsimp only
  split
  · rfl
  · exact writeEntries_frame _ _ _ _ _ hx

theorem step4_frame (c : Config) (q : Path) (hq : isSeg c.tempDir q = false) :
    ∀ s, ((step4_RenameMainJs c s).state).fs q = s.fs q := by
  intro s
  have hx : isSeg (extractPath c) q = false := isSeg_append_false c.tempDir _ q hq
  unfold step4_RenameMainJs
  dsimp only
  split
  · rfl
  · exact FS.rename_frame _ _ _ _ (isSeg_append_false _ _ q hx) (isSeg_append_false _ _ q hx)

theorem step5_frame (c : Config) (q : Path) (hq : isSeg c.tempDir q = false) :
    ∀ s, ((step5_CopyNewMainJs c s).state).fs q = s.fs q := by
  intro s
  have hne : q ≠ extractPath c ++ ["build", "main.js"] :=
    (ne_of_isSeg (isSeg_append_append c.tempDir ["extracted"] ["build", "main.js"]) hq).symm
  unfold step5_CopyNewMainJs
  dsimp only
  split
  · rfl
  · split
    · exact FS.set_frame _ _ _ _ hne
    · rfl

theorem step6_frame (c : Config) (ext : Ext) (q : Path) (hq : isSeg c.tempDir q = false) :
    ∀ s, ((step6_AddGhosteryDependencies c ext s).state).fs q = s.fs q := by
  intro s
  have hx : isSeg (extractPath c) q = false := isSeg_append_false c.tempDir _ q hq
  have hnm : isSeg (extractPath c ++ ["node_modules"]) q = false :=
    isSeg_append_false _ _ q hx
  have h1 : (rmNodeModules c s).fs q = s.fs q := by
    unfold rmNodeModules
    split
    · exact FS.rmrf_frame _ _ _ hnm
    · rfl
  unfold step6_AddGhosteryDependencies
  dsimp only
  split
  · exact h1
  · split
    · exact h1
    · split
      · dsimp only [StepRes.state]
        rw [writeEntries_frame _ _ _ _ _ hx]
        exact h1
      · dsimp only [StepRes.state]
        rw [writeEntries_frame _ _ _ _ _ hx, writeEntries_frame _ _ _ _ _ hx]
        exact h1

theorem step7_frame (c : Config) (ext : Ext) (q : Path) (hq : isSeg c.tempDir q = false) :
    ∀ s, ((step7_RepackAsar c ext s).state).fs q = s.fs q := by
  intro s
  have hne : q ≠ newAsarPath c :=
    (ne_of_isSeg (isSeg_append c.tempDir ["app.new.asar"]) hq).symm
  unfold step7_RepackAsar
  dsimp only
  split
  · rfl
  · exact FS.set_frame _ _ _ _ hne

theorem cleanup_frame (c : Config) (s : St) (q : Path) (hq : isSeg c.tempDir q = false) :
    (cleanup c s).fs q = s.fs q := by
  unfold cleanup
  split
  · exact FS.rmrf_frame _ _ _ hq
  · rfl

theorem cleanup_tempDir_none (c : Config) (s : St) : (cleanup c s).fs c.tempDir = none := by
  unfold cleanup
  split
  · exact FS.rmrf_none _ _ _ (isSeg_refl _)
  · next h =>
    cases hv : s.fs c.tempDir with
    | none => rfl
    | some v => exact absurd (by simp [FS.existsSync, hv]) h

theorem stepsBefore_frame (c : Config) (p : Paths) (ext : Ext) (q : Path)
    (h1 : isSeg c.tempDir q = false) (h2 : isSeg c.tempCheck q = false)
    (h3 : q ≠ backupFile p) :
    ∀ s, ((stepsBeforeCopyBack c p ext s).state).fs q = s.fs q := by
  intro s
  unfold stepsBeforeCopyBack
  exact seqS_frame _ _ q s (step0_Kill_frame q s) fun t1 =>
    seqS_frame _ _ q t1 (step0_Check_frame c p ext q h2 t1) fun t2 =>
    seqS_frame _ _ q t2 (step1_frame p q h3 t2) fun t3 =>
    seqS_frame _ _ q t3 (step2_frame c q h1 t3) fun t4 =>
    seqS_frame _ _ q t4 (step3_frame c p ext q h1 t4) fun t5 =>
    seqS_frame _ _ q t5 (step4_frame c q h1 t5) fun t6 =>
    seqS_frame _ _ q t6 (step5_frame c q h1 t6) fun t7 =>
    seqS_frame _ _ q t7 (step6_frame c ext q h1 t7) fun t8 =>
    step7_frame c ext q h1 t8

theorem step8_err_state (c : Config) (p : Paths) (s : St) (m : String) (s' : St)
    (h : step8_CopyBack c p s = .err m s') : s' = s := by
  unfold step8_CopyBack at h
  split at h
  · injection h with h1 h2
    exact h2.symm
  · split at h
    · exact StepRes.noConfusion h
    · injection h with h1 h2
      exact h2.symm

theorem step8_ok_tempDir (c : Config) (p : Paths) (s : St) (s' : St)
    (h : step8_CopyBack c p s = .ok s') : s'.fs c.tempDir = none := by
  unfold step8_CopyBack at h
  split at h
  · exact StepRes.noConfusion h
  · split at h
    · injection h with h1
      rw [← h1]
      exact cleanup_tempDir_none c _
    · exact StepRes.noConfusion h

theorem runSteps_ok_tempDir (c : Config) (p : Paths) (ext : Ext) (s : St) (s' : St)
    (h : runSteps c p ext s = .ok s') : s'.fs c.tempDir = none := by
  unfold runSteps at h
  cases hb : stepsBeforeCopyBack c p ext s with
  | ok s7 =>
    rw [hb] at h
    simp only [seqS] at h
    exact step8_ok_tempDir c p s7 s' h
  | err m t =>
    rw [hb] at h
    simp only [seqS] at h
    exact StepRes.noConfusion h
  | exited k t =>
    rw [hb] at h
    simp only [seqS] at h
    exact StepRes.noConfusion h

/-! ## Auxiliary facts about paths built by the patcher -/

theorem appendNe (a : Path) (x y : List String) (h : x ≠ y) : a ++ x ≠ a ++ y := by
  intro heq
  induction a with
  | nil => exact h heq
  | cons z a ih =>
    injection heq with h1 h2
    exact ih h2

theorem pairNe (x y : String) (h : x ≠ y) :
    (["resources", x] : List String) ≠ ["resources", y] := by
  intro heq
  injection heq with h1 h2
  injection h2 with h3 h4
  exact h h3

theorem liveNeBackup (p : Paths) (h : p.asarFile ≠ "app.bak.asar") :
    originalAsar p ≠ backupFile p :=
  appendNe _ _ _ (pairNe _ _ h)

theorem backupNeLive (p : Paths) (h : p.asarFile ≠ "app.bak.asar") :
    backupFile p ≠ originalAsar p :=
  appendNe _ _ _ (pairNe _ _ (Ne.symm h))

/-! ## Capture/replay lemmas for the injection wrapper -/

theorem capture_fst (regs : List (String × Nat)) (acc : List WEv × List Nat) :
    (regs.foldl appOnPatched acc).1 = acc.1 ++ capEvents regs := by
  induction regs generalizing acc with
  | nil => simp [capEvents]
  | cons r regs ih =>
    rw [List.foldl_cons, ih]
    by_cases h : r.1 = "ready" <;>
      simp [appOnPatched, capEvents, h, List.append_assoc]

theorem capture_snd (regs : List (String × Nat)) (acc : List WEv × List Nat) :
    (regs.foldl appOnPatched acc).2 = acc.2 ++ readyIds regs := by
  induction regs generalizing acc with
  | nil => simp [readyIds]
  | cons r regs ih =>
    rw [List.foldl_cons, ih]
    by_cases h : r.1 = "ready" <;>
      simp [appOnPatched, readyIds, h, List.append_assoc]

theorem capturePhase_fst (regs : List (String × Nat)) :
    (capturePhase regs).1 = capEvents regs := by
  unfold capturePhase
  rw [capture_fst]
  simp

theorem capturePhase_snd (regs : List (String × Nat)) :
    (capturePhase regs).2 = readyIds regs := by
  unfold capturePhase
  rw [capture_snd]
  simp

theorem invokedIds_append (a b : List WEv) :
    invokedIds (a ++ b) = invokedIds a ++ invokedIds b := by
  simp [invokedIds, List.filterMap_append]

theorem capEvents_invoked (regs : List (String × Nat)) :
    invokedIds (capEvents regs) = [] := by
  induction regs with
  | nil => rfl
  | cons r regs ih =>
    by_cases h : r.1 = "ready" <;> simp [capEvents, invokedIds, h] at ih ⊢ <;> exact ih

theorem capEvents_no_ready (regs : List (String × Nat)) (i : Nat) :
    WEv.passedThrough "ready" i ∉ capEvents regs := by
  induction regs with
  | nil => simp [capEvents]
  | cons r regs ih =>
    unfold capEvents
    rw [List.map_cons]
    intro hmem
    rcases List.mem_cons.mp hmem with hh | hh
    · split at hh
      · exact WEv.noConfusion hh
      · next hne =>
        injection hh with h1 h2
        exact hne h1.symm
    · exact ih hh

theorem replay_invoked (throws : Nat → Bool) (queue : List Nat) (acc : List WEv) :
    invokedIds (queue.foldl (replayStep throws) acc) = invokedIds acc ++ queue := by
  induction queue generalizing acc with
  | nil => simp
  | cons i q ih =>
    rw [List.foldl_cons, ih]
    by_cases h : throws i <;>
      simp [replayStep, invokedIds, h, List.filterMap_append, List.append_assoc]

theorem replay_no_passedThrough (throws : Nat → Bool) (queue : List Nat) (acc : List WEv)
    (a : String) (i : Nat) (h : WEv.passedThrough a i ∉ acc) :
    WEv.passedThrough a i ∉ queue.foldl (replayStep throws) acc := by
  induction queue generalizing acc with
  | nil => exact h
  | cons j q ih =>
    rw [List.foldl_cons]
    apply ih
    intro hmem
    unfold replayStep at hmem
    rcases List.mem_append.mp hmem with hh | hh
    · exact h hh
    · split at hh <;> simp at hh

theorem bootstrapTrace_invoked (throws : Nat → Bool) (e : AdbEnv) (q : List Nat) :
    invokedIds (bootstrapTrace throws e q) = q := by
  unfold bootstrapTrace
  have h1 : invokedIds
      (WEv.adblockDone (initAdblocker e) :: (replay throws q ++ [WEv.restoredAppOn]))
      = invokedIds (replay throws q ++ [WEv.restoredAppOn]) := rfl
  rw [h1, invokedIds_append]
  unfold replay
  rw [replay_invoked]
  simp [invokedIds]

/-! ## Reductions of `run` -/

theorem run_win32 (c : Config) (ext : Ext) (s : St) (hwin : c.platform = "win32") :
    run c ext s = match runSteps c (win32Paths c.homedir) ext s with
      | .ok s' => (s', Outcome.success)
      | .err m s' => (cleanup c s', Outcome.errorExit m)
      | .exited code s' => (s', Outcome.earlyExit code) := by
  unfold run
  rw [hwin]
  simp [getPlatformPaths]

theorem run_not_win32 (c : Config) (ext : Ext) (s : St) (hplat : c.platform ≠ "win32") :
    (run c ext s).1 = s := by
  unfold run
  cases hp : getPlatformPaths c.platform c.homedir with
  | none => rfl
  | some p => simp [hplat]

theorem runSteps_err_frame (c : Config) (p : Paths) (ext : Ext) (s : St) (m : String)
    (s0 : St) (h : runSteps c p ext s = .err m s0) (q : Path)
    (h1 : isSeg c.tempDir q = false) (h2 : isSeg c.tempCheck q = false)
    (h3 : q ≠ backupFile p) :
    s0.fs q = s.fs q := by
  unfold runSteps at h
  cases hb : stepsBeforeCopyBack c p ext s with
  | ok s7 =>
    rw [hb] at h
    simp only [seqS] at h
    rw [step8_err_state c p s7 m s0 h]
    have hf := stepsBefore_frame c p ext q h1 h2 h3 s
    rw [hb] at hf
    exact hf
  | err m1 t =>
    rw [hb] at h
    simp only [seqS] at h
    injection h with ha hb2
    rw [← hb2]
    have hf := stepsBefore_frame c p ext q h1 h2 h3 s
    rw [hb] at hf
    exact hf
  | exited k t =>
    rw [hb] at h
    simp only [seqS] at h
    exact StepRes.noConfusion h

/-! ## The claims -/

/-- Claim C1: if any step before step8's final copy throws, the live archive
at `<deezerPath>/resources/app.asar` is unchanged in content and modification
time (the whole node, content and mtime, is preserved both in the state the
top-level catch hands to the process exit, and in the state entering the
replace step), so the replace copy is the only operation mutating the live
archive. -/
theorem c1_no_partial_replace (c : Config) (ext : Ext) (s : St)
    (hT : isSeg c.tempDir (originalAsar (win32Paths c.homedir)) = false)
    (hC : isSeg c.tempCheck (originalAsar (win32Paths c.homedir)) = false) :
    (∀ m, (run c ext s).2 = Outcome.errorExit m →
      ((run c ext s).1).fs (originalAsar (win32Paths c.homedir))
        = s.fs (originalAsar (win32Paths c.homedir)))
    ∧ (∀ s', stepsBeforeCopyBack c (win32Paths c.homedir) ext s = .ok s' →
      s'.fs (originalAsar (win32Paths c.homedir))
        = s.fs (originalAsar (win32Paths c.homedir))) := by
  have hlb : originalAsar (win32Paths c.homedir) ≠ backupFile (win32Paths c.homedir) :=
    liveNeBackup _ (show ("app.asar" : String) ≠ "app.bak.asar" by decide)
  constructor
  · intro m hr
    by_cases hplat : c.platform = "win32"
    · rw [run_win32 c ext s hplat] at hr ⊢
      cases hrs : runSteps c (win32Paths c.homedir) ext s with
      | ok s1 =>
        rw [hrs] at hr
        exact Outcome.noConfusion hr
      | err m0 s0 =>
        show (cleanup c s0).fs (originalAsar (win32Paths c.homedir))
          = s.fs (originalAsar (win32Paths c.homedir))
        rw [cleanup_frame c s0 _ hT]
        exact runSteps_err_frame c _ ext s m0 s0 hrs _ hT hC hlb
      | exited k s0 =>
        rw [hrs] at hr
        exact Outcome.noConfusion hr
    · rw [run_not_win32 c ext s hplat]
  · intro s' h
    have hf := stepsBefore_frame c (win32Paths c.homedir) ext
      (originalAsar (win32Paths c.homedir)) hT hC hlb s
    rw [h] at hf
    exact hf

/-- Witness for C1: a concrete win32 run in which the extraction step throws;
the live archive node is unchanged. -/
theorem c1_no_partial_replace_witness :
    ((run cfgW extFail stLive).1).fs (originalAsar (win32Paths cfgW.homedir))
      = stLive.fs (originalAsar (win32Paths cfgW.homedir)) :=
  (c1_no_partial_replace cfgW extFail stLive (by decide) (by decide)).1
    "asar extract failed" (by decide)

/-- Claim C2: `checkPatchSignature` returns true exactly when the extracted
entry script `build/main.js` contains one of the injected marker strings,
returns false when it contains none, and returns false (instead of throwing)
when the entry script is absent from the extracted tree or the extraction
itself fails. -/
theorem c2_detection_monotonicity (ext : Ext) (asarPath tempCheck : Path) (s : St) :
    (ext.extract asarPath = none →
      (checkPatchSignature ext asarPath tempCheck s).1 = false)
    ∧ (∀ es, ext.extract asarPath = some es →
        (∀ content t,
          writeEntries tempCheck es (FS.set s.fs tempCheck FNode.dir) s.clock
              (tempCheck ++ ["build", "main.js"]) = some (FNode.file content t) →
          (checkPatchSignature ext asarPath tempCheck s).1
            = (includesStr content "DZ_DEVTOOLS" || includesStr content "[inject]"))
        ∧ (writeEntries tempCheck es (FS.set s.fs tempCheck FNode.dir) s.clock
              (tempCheck ++ ["build", "main.js"]) = none →
          (checkPatchSignature ext asarPath tempCheck s).1 = false)) := by
  refine ⟨?_, ?_⟩
  · intro hx
    simp [checkPatchSignature, hx]
  · intro es hx
    refine ⟨?_, ?_⟩
    · intro content t hm
      simp [checkPatchSignature, hx, hm]
    · intro hm
      simp [checkPatchSignature, hx, hm]

/-- Witness for C2: on an archive whose entry script carries the `[inject]`
marker, the detector answers true. -/
theorem c2_detection_monotonicity_witness :
    (checkPatchSignature extMarked (originalAsar pathsW) cfgW.tempCheck stEmpty).1 = true := by
  have h := ((c2_detection_monotonicity extMarked (originalAsar pathsW) cfgW.tempCheck
      stEmpty).2 [(["build", "main.js"], "x [inject] y")] rfl).1 "x [inject] y" 0 (by decide)
  rw [h]
  decide

/-- Counterexample to claim C3 as stated: when the throwaway extraction
throws, the catch handler of `checkPatchSignature` returns false without
deleting the temporary directory it created, so the directory still exists
when the call returns. -/
theorem c3_tempdir_leak_counterexample :
    ((checkPatchSignature extFail (originalAsar pathsW) cfgW.tempCheck stEmpty).2).fs
      cfgW.tempCheck = some FNode.dir := by
  decide

/-- Claim C3, amended: on the marker-found, marker-absent and
entry-script-missing outcomes (i.e. whenever the extraction succeeds and the
entry-script read does not throw) the temporary directory is deleted before
returning; on an extraction or read error the call still returns false but
may leave the directory behind. -/
theorem c3_cleanup_amended (ext : Ext) (asarPath tempCheck : Path) (s : St)
    (es : List (Path × String)) (hx : ext.extract asarPath = some es)
    (hnotdir : writeEntries tempCheck es (FS.set s.fs tempCheck FNode.dir) s.clock
        (tempCheck ++ ["build", "main.js"]) ≠ some FNode.dir) :
    ∀ q, isSeg tempCheck q = true →
      ((checkPatchSignature ext asarPath tempCheck s).2).fs q = none := by
  intro q hq
  cases hlook : writeEntries tempCheck es (FS.set s.fs tempCheck FNode.dir) s.clock
      (tempCheck ++ ["build", "main.js"]) with
  | none => simp [checkPatchSignature, hx, hlook, FS.rmrf, hq]
  | some node =>
    cases node with
    | file content t => simp [checkPatchSignature, hx, hlook, FS.rmrf, hq]
    | dir => exact absurd hlook hnotdir

/-- Witness for the amended C3: on a successful extraction the temporary
directory is gone when the detector returns. -/
theorem c3_cleanup_amended_witness :
    ((checkPatchSignature extMarked (originalAsar pathsW) cfgW.tempCheck stEmpty).2).fs
      cfgW.tempCheck = none :=
  c3_cleanup_amended extMarked (originalAsar pathsW) cfgW.tempCheck stEmpty
    [(["build", "main.js"], "x [inject] y")] rfl (by decide) cfgW.tempCheck
    (isSeg_refl cfgW.tempCheck)

/-- Claim C4: backup creation is idempotent: whenever a backup node already
exists it is preserved by `step1_CreateBackup` on every outcome, and with
`useExistingBackup` unset (and the live archive present) the step returns
with the state completely unchanged. -/
theorem c4_backup_idempotent (p : Paths) (s : St) (b : FNode)
    (hb : s.fs (backupFile p) = some b) :
    ((step1_CreateBackup p s).state).fs (backupFile p) = some b
    ∧ (s.useExistingBackup = false → FS.existsSync s.fs (originalAsar p) = true →
        step1_CreateBackup p s = .ok s) := by
  have hex : FS.existsSync s.fs (backupFile p) = true := by
    simp [FS.existsSync, hb]
  constructor
  · unfold step1_CreateBackup
    split
    · exact hb
    · split
      · exact hb
      · split
        · exact hb
        · rename_i h2 h3
          exfalso
          rw [hex] at h2
          simp at h2
          exact h3 h2
  · intro hflag horig
    simp [step1_CreateBackup, horig, hex, hflag]

/-- Witness for C4: with a live archive and an existing backup, the step is a
no-op and the backup bytes survive. -/
theorem c4_backup_idempotent_witness :
    ((step1_CreateBackup pathsW stLiveBak).state).fs (backupFile pathsW)
        = some (FNode.file "b" 0)
    ∧ step1_CreateBackup pathsW stLiveBak = .ok stLiveBak :=
  ⟨(c4_backup_idempotent pathsW stLiveBak (FNode.file "b" 0) (by decide)).1,
   (c4_backup_idempotent pathsW stLiveBak (FNode.file "b" 0) (by decide)).2 rfl (by decide)⟩

/-- Claim C5: the extraction step records exactly one codec invocation whose
source is the backup when `useExistingBackup` is set and the live archive
otherwise; in a re-patch the source is the backup and is a different path
from the live archive. -/
theorem c5_extract_source (c : Config) (p : Paths) (ext : Ext) (s : St) :
    ((step3_ExtractAsar c p ext s).state).trace
      = s.trace ++ [Ev.extract
          (if s.useExistingBackup then backupFile p else originalAsar p) (extractPath c)]
    ∧ (s.useExistingBackup = true →
        (if s.useExistingBackup then backupFile p else originalAsar p) = backupFile p)
    ∧ (s.useExistingBackup = true → p.asarFile ≠ "app.bak.asar" →
        (if s.useExistingBackup then backupFile p else originalAsar p) ≠ originalAsar p) := by
  refine ⟨?_, ?_, ?_⟩
  · unfold step3_ExtractAsar
    dsimp only
    split
    · rfl
    · rfl
  · intro hflag
    rw [hflag]
    rfl
  · intro hflag hfile
    rw [hflag]
    show backupFile p ≠ originalAsar p
    exact backupNeLive p hfile

/-- Witness for C5: a concrete re-patch extraction reads the backup, which is
not the live archive path. -/
theorem c5_extract_source_witness :
    ((step3_ExtractAsar cfgW pathsW extFail stFlag).state).trace
      = stFlag.trace ++ [Ev.extract (backupFile pathsW) (extractPath cfgW)]
    ∧ backupFile pathsW ≠ originalAsar pathsW := by
  refine ⟨?_, ?_⟩
  · exact (c5_extract_source cfgW pathsW extFail stFlag).1
  · exact (c5_extract_source cfgW pathsW extFail stFlag).2.2 rfl (by decide)

/-- Claim C6: if the live archive is detected as patched and no backup
exists, the run ends with `process.exit(1)` straight from step 0b: the trace
holds only the detector's throwaway extraction (nothing was extracted into
the workspace), every path outside the detector's temporary directory —
in particular the scratch workspace and all installation files — is
untouched, and the detector's temporary directory has been emptied. -/
theorem c6_patched_no_backup_aborts (c : Config) (ext : Ext) (s : St)
    (hwin : c.platform = "win32")
    (hlive : FS.existsSync s.fs (originalAsar (win32Paths c.homedir)) = true)
    (hpatched : (checkPatchSignature ext (originalAsar (win32Paths c.homedir))
        c.tempCheck s).1 = true)
    (hbak : s.fs (backupFile (win32Paths c.homedir)) = none)
    (hseg : isSeg c.tempCheck (backupFile (win32Paths c.homedir)) = false) :
    ∃ s', run c ext s = (s', Outcome.earlyExit 1)
      ∧ s'.trace = s.trace
          ++ [Ev.extract (originalAsar (win32Paths c.homedir)) c.tempCheck]
      ∧ (∀ q, isSeg c.tempCheck q = false → s'.fs q = s.fs q)
      ∧ (∀ q, isSeg c.tempCheck q = true → s'.fs q = none) := by
  have hbex : FS.existsSync
      ((checkPatchSignature ext (originalAsar (win32Paths c.homedir)) c.tempCheck s).2).fs
      (backupFile (win32Paths c.homedir)) = false := by
    unfold FS.existsSync
    rw [checkPatchSignature_frame ext _ _ s _ hseg, hbak]
    rfl
  have hstep : step0_CheckIfPatched c (win32Paths c.homedir) ext s
      = .exited 1 (checkPatchSignature ext (originalAsar (win32Paths c.homedir))
          c.tempCheck s).2 := by
    unfold step0_CheckIfPatched
    dsimp only
    rw [hlive, hpatched, hbex]
    rfl
  have hrun : runSteps c (win32Paths c.homedir) ext s
      = .exited 1 (checkPatchSignature ext (originalAsar (win32Paths c.homedir))
          c.tempCheck s).2 := by
    unfold runSteps stepsBeforeCopyBack
    simp only [step0_KillDeezer, seqS]
    rw [hstep]
  refine ⟨(checkPatchSignature ext (originalAsar (win32Paths c.homedir)) c.tempCheck s).2,
    ?_, ?_, ?_, ?_⟩
  · rw [run_win32 c ext s hwin, hrun]
  · exact checkPatchSignature_trace ext _ _ s
  · intro q hq
    exact checkPatchSignature_frame ext _ _ s q hq
  · intro q hq
    exact checkPatchSignature_true_cleanup ext _ _ s hpatched q hq

/-- Witness for C6: concrete patched installation without a backup; the run
exits with code 1 having touched nothing outside the detector's temporary
directory. -/
theorem c6_patched_no_backup_aborts_witness :
    ∃ s', run cfgW extMarked stLive = (s', Outcome.earlyExit 1)
      ∧ s'.trace = stLive.trace
          ++ [Ev.extract (originalAsar (win32Paths cfgW.homedir)) cfgW.tempCheck]
      ∧ (∀ q, isSeg cfgW.tempCheck q = false → s'.fs q = stLive.fs q)
      ∧ (∀ q, isSeg cfgW.tempCheck q = true → s'.fs q = none) :=
  c6_patched_no_backup_aborts cfgW extMarked stLive rfl (by decide) (by decide)
    (by decide) (by decide)

/-- Claim C7: for every run that either completes successfully or aborts on a
thrown error (caught by the top-level handler), the scratch workspace
directory does not exist in the final filesystem. -/
theorem c7_cleanup_guarantee (c : Config) (ext : Ext) (s : St)
    (hwin : c.platform = "win32")
    (hend : (run c ext s).2 = Outcome.success
        ∨ ∃ m, (run c ext s).2 = Outcome.errorExit m) :
    ((run c ext s).1).fs c.tempDir = none := by
  rw [run_win32 c ext s hwin] at hend ⊢
  cases hrs : runSteps c (win32Paths c.homedir) ext s with
  | ok s1 => exact runSteps_ok_tempDir c _ ext s s1 hrs
  | err m s1 => exact cleanup_tempDir_none c s1
  | exited k s1 =>
    rw [hrs] at hend
    rcases hend with h | ⟨m, h⟩
    · exact Outcome.noConfusion h
    · exact Outcome.noConfusion h

/-- Witness for C7: a concrete erroring run leaves no scratch workspace. -/
theorem c7_cleanup_guarantee_witness :
    ((run cfgW extFail stEmpty).1).fs cfgW.tempDir = none :=
  c7_cleanup_guarantee cfgW extFail stEmpty rfl
    (Or.inr ⟨"Deezer asar file not found", by decide⟩)

/-- Claim C8: the wrapper's patched `app.on` captures every ready listener the
original main registers (none reaches the real `app.on`), the replayed
invocations are exactly the ready registrations in original order, and every
invocation occurs after `initAdblocker` has resolved (with the engine, the
manual fallback, or no blocking). -/
theorem c8_ready_listeners_deferred (regs : List (String × Nat)) (throws : Nat → Bool)
    (e : AdbEnv) :
    (∀ i, WEv.passedThrough "ready" i ∉ wrapperTrace regs throws e)
    ∧ invokedIds (wrapperTrace regs throws e) = readyIds regs
    ∧ ∃ pre post, wrapperTrace regs throws e
        = pre ++ WEv.adblockDone (initAdblocker e) :: post ∧ invokedIds pre = [] := by
  refine ⟨?_, ?_, ?_⟩
  · intro i hmem
    unfold wrapperTrace bootstrapTrace at hmem
    rw [capturePhase_fst] at hmem
    rcases List.mem_append.mp hmem with hh | hh
    · exact capEvents_no_ready regs i hh
    · rcases List.mem_cons.mp hh with hh2 | hh2
      · exact WEv.noConfusion hh2
      · rcases List.mem_append.mp hh2 with hh3 | hh3
        · unfold replay at hh3
          exact replay_no_passedThrough throws _ [] "ready" i (by simp) hh3
        · simp at hh3
  · unfold wrapperTrace
    rw [invokedIds_append, capturePhase_fst, capEvents_invoked, capturePhase_snd,
      bootstrapTrace_invoked]
    simp
  · refine ⟨(capturePhase regs).1,
      replay throws (capturePhase regs).2 ++ [WEv.restoredAppOn], rfl, ?_⟩
    rw [capturePhase_fst]
    exact capEvents_invoked regs

/-- Claim C10: during replay an exception from any listener is caught
individually, so for every throwing behaviour each captured listener is
invoked exactly once, in order, and the bootstrap completes with the
restoration of the original `app.on` as its last action. -/
theorem c10_replay_error_isolation (regs : List (String × Nat)) (throws : Nat → Bool)
    (e : AdbEnv) :
    invokedIds (bootstrapTrace throws e (capturePhase regs).2) = (capturePhase regs).2
    ∧ (bootstrapTrace throws e (capturePhase regs).2).getLast?
        = some WEv.restoredAppOn := by
  refine ⟨bootstrapTrace_invoked throws e _, ?_⟩
  unfold bootstrapTrace
  rw [show WEv.adblockDone (initAdblocker e)
        :: (replay throws (capturePhase regs).2 ++ [WEv.restoredAppOn])
      = (WEv.adblockDone (initAdblocker e) :: replay throws (capturePhase regs).2)
        ++ [WEv.restoredAppOn] from rfl]
  exact List.getLast?_concat _

/-- Claim C9: with no `package.json` in the extracted tree, step 6 returns
normally having run no package-manager install (the trace is unchanged); it
still removes an existing `node_modules` first but touches nothing else, and
the sequel of the pipeline (the repack step) is reached. -/
theorem c9_missing_package_json (c : Config) (ext : Ext) (s : St)
    (hpkg : s.fs (extractPath c ++ ["package.json"]) = none) :
    ∃ s', step6_AddGhosteryDependencies c ext s = .ok s'
      ∧ s'.trace = s.trace
      ∧ (∀ q, isSeg (extractPath c ++ ["node_modules"]) q = false → s'.fs q = s.fs q)
      ∧ ∀ f : St → StepRes, seqS (step6_AddGhosteryDependencies c ext s) f = f s' := by
  have hpkg1 : (rmNodeModules c s).fs (extractPath c ++ ["package.json"]) = none := by
    unfold rmNodeModules
    split
    · show FS.rmrf s.fs (extractPath c ++ ["node_modules"])
          (extractPath c ++ ["package.json"]) = none
      rw [FS.rmrf_frame]
      · exact hpkg
      · rw [isSeg_append_same]
        decide
    · exact hpkg
  have hstep : step6_AddGhosteryDependencies c ext s = .ok (rmNodeModules c s) := by
    unfold step6_AddGhosteryDependencies
    dsimp only
    rw [show FS.existsSync (rmNodeModules c s).fs (extractPath c ++ ["package.json"])
        = false from by unfold FS.existsSync; rw [hpkg1]; rfl]
    rfl
  refine ⟨rmNodeModules c s, hstep, ?_, ?_, ?_⟩
  · unfold rmNodeModules
    split
    · rfl
    · rfl
  · intro q hq
    unfold rmNodeModules
    split
    · exact FS.rmrf_frame _ _ _ hq
    · rfl
  · intro f
    rw [hstep]
    rfl

/-- Witness for C9: concrete extracted tree without `package.json`. -/
theorem c9_missing_package_json_witness :
    ∃ s', step6_AddGhosteryDependencies cfgW extFail stEmpty = .ok s'
      ∧ s'.trace = stEmpty.trace
      ∧ (∀ q, isSeg (extractPath cfgW ++ ["node_modules"]) q = false →
          s'.fs q = stEmpty.fs q)
      ∧ ∀ f : St → StepRes, seqS (step6_AddGhosteryDependencies cfgW extFail stEmpty) f
          = f s' :=
  c9_missing_package_json cfgW extFail stEmpty (by decide)

end DeDeezer
